import Mathlib

/-!
Verification of the authentication and session-security subsystem of the
flutter-expense-tracker backend (FastAPI application under `backend/app`).

The development shallowly embeds the relevant Python code:

* `app/core/security.py` — `JWTManager` (token creation and verification),
  `TokenBlacklist`, `verify_access_token`, `revoke_token`;
* `app/routes/auth.py` — the `login` route body after the rate-limit gate,
  and the `refresh_token` route body;
* `app/crud/user.py` — `create_user` field initialisation and
  `update_user_login_info`;
* `app/core/rate_limiting.py` — `InMemoryRateLimiter.is_allowed`.

Machine times are modelled as natural-number seconds.  Signatures are
modelled symbolically: a token records the key it was signed with, and the
signature validates exactly when that key equals the secret of the verifier.
bcrypt hashing is modelled as an injective tagging function, so that
`verify_password p h` holds exactly when `h` is the hash of `p`.
-/

/-! ## Token model (app/core/security.py) -/

/-- Decoded JWT payload.  `ptype` models `payload.get("type")` and `jti`
models `payload.get("jti")`: both are `Option`s because `dict.get` returns
`None` when the claim is absent.  `exp` and `iat` are POSIX seconds. -/
structure Payload where
  sub : String
  exp : Nat
  iat : Nat
  ptype : Option String
  jti : Option String
  deriving DecidableEq, Repr

/-- A signed token: the payload together with the key it was signed with.
The signature validates against secret `s` exactly when `key = s`. -/
structure Token where
  payload : Payload
  key : String
  deriving DecidableEq, Repr

/-- Errors raised by `jose.jwt.decode`. -/
inductive JoseError
  | ExpiredSignatureError
  | JWTError
  deriving DecidableEq, Repr

/-- Model of `jose.jwt.decode(token, secret, algorithms)`: the signature is
checked first, then the `exp` claim (a token is expired once `now`
exceeds `exp`). -/
def jwtDecode (secret : String) (now : Nat) (t : Token) : Except JoseError Payload :=
  if t.key ≠ secret then .error .JWTError
  else if t.payload.exp < now then .error .ExpiredSignatureError
  else .ok t.payload

/-- The 401 error kinds surfaced by token verification, one per raise site
in `app/core/security.py` (`detail` strings: "Token expired",
"Invalid token type", "Could not validate credentials",
"Token has been revoked"). -/
inductive TokenError
  | TokenExpired
  | InvalidTokenType
  | CouldNotValidate
  | TokenRevoked
  deriving DecidableEq, Repr

/-- `JWTManager.verify_token(token, token_type)`: decode, then compare the
embedded `type` claim with the expected one.  The type-mismatch
`HTTPException` is raised inside the `try` block but is not caught by the
`except jwt.ExpiredSignatureError` / `except JWTError` clauses, so it
propagates as is. -/
def JWTManager.verify_token (secret : String) (now : Nat) (t : Token)
    (token_type : String) : Except TokenError Payload :=
  match jwtDecode secret now t with
  | .ok payload =>
      if payload.ptype ≠ some token_type then .error .InvalidTokenType
      else .ok payload
  | .error .ExpiredSignatureError => .error .TokenExpired
  | .error .JWTError => .error .CouldNotValidate

/-- `JWTManager.create_access_token`: embeds the subject claims, a fresh
`jti`, `type = "access"` and `exp = now + access_minutes * 60`.  The
`jti` produced by `secrets.token_urlsafe(32)` is a nonempty string and is
passed here as a parameter. -/
def JWTManager.create_access_token (secret sub jti : String) (now access_minutes : Nat) :
    Token :=
  { payload :=
      { sub := sub, exp := now + access_minutes * 60, iat := now,
        ptype := some "access", jti := some jti },
    key := secret }

/-- `JWTManager.create_refresh_token`: same shape with `type = "refresh"`
and `exp = now + refresh_days * 86400`. -/
def JWTManager.create_refresh_token (secret sub jti : String) (now refresh_days : Nat) :
    Token :=
  { payload :=
      { sub := sub, exp := now + refresh_days * 86400, iat := now,
        ptype := some "refresh", jti := some jti },
    key := secret }

/-- `TokenBlacklist.add_token`: inserts a jti into the blacklist set
(modelled as a list read only through membership). -/
def TokenBlacklist.add_token (bl : List String) (jti : String) : List String :=
  jti :: bl

/-- `TokenBlacklist.is_blacklisted`: membership test. -/
def TokenBlacklist.is_blacklisted (bl : List String) (jti : String) : Bool :=
  bl.contains jti

/-- Python truthiness of an optional string: `None` and `""` are falsy. -/
def pyTruthy : Option String → Bool
  | none => false
  | some s => s ≠ ""

/-- `verify_access_token(token)` from `app/core/security.py`: verify as an
access token, then reject with `TokenRevoked` when the payload carries a
truthy `jti` that is blacklisted (`if jti and token_blacklist.is_blacklisted(jti)`). -/
def verify_access_token (secret : String) (now : Nat) (bl : List String) (t : Token) :
    Except TokenError Payload :=
  match JWTManager.verify_token secret now t "access" with
  | .error e => .error e
  | .ok payload =>
      match payload.jti with
      | some j =>
          if j ≠ "" ∧ TokenBlacklist.is_blacklisted bl j then .error .TokenRevoked
          else .ok payload
      | none => .ok payload

/-- `revoke_token(token)` from `app/core/security.py`: verify the token as
an access token inside a `try`; on success add its truthy `jti` to the
blacklist; any verification failure is swallowed by the bare `except`
(`pass`), leaving the blacklist unchanged.  The function never raises. -/
def revoke_token (secret : String) (now : Nat) (bl : List String) (t : Token) :
    List String :=
  match JWTManager.verify_token secret now t "access" with
  | .ok payload =>
      match payload.jti with
      | some j => if j ≠ "" then TokenBlacklist.add_token bl j else bl
      | none => bl
  | .error _ => bl

/-! ## The refresh endpoint (app/routes/auth.py, `refresh_token`) -/

/-- The attributes defined on class `JWTManager` in `app/core/security.py`:
the instance attributes assigned in `__init__` and the three methods.
Notably `refresh_access_token` is NOT among them, and no other definition
of it exists anywhere in the repository. -/
def jwtManagerAttrs : List String :=
  ["access_token_expire_minutes", "refresh_token_expire_days", "algorithm",
   "secret_key", "create_access_token", "create_refresh_token", "verify_token"]

/-- Outcome of `POST /auth/refresh`. -/
inductive RefreshResult
  | ok200
  | invalidRefreshToken401
  deriving DecidableEq, Repr

/-- The body of the `refresh_token` route: it evaluates
`jwt_manager.refresh_access_token(refresh_data.refresh_token)` inside a
`try`.  Attribute lookup on `jwt_manager` is resolved against
`jwtManagerAttrs`; when the attribute is missing Python raises
`AttributeError`, which the `except Exception` clause maps to the 401
"Invalid refresh token" response.  The success branch is unreachable:
there is no `refresh_access_token` implementation in the source to embed,
so it is represented by the bare 200 outcome. -/
def refresh_endpoint (_t : Token) : RefreshResult :=
  if jwtManagerAttrs.contains "refresh_access_token" then
    RefreshResult.ok200
  else
    RefreshResult.invalidRefreshToken401

/-! ## Password hashing (app/core/security.py, `PasswordSecurity`) -/

/-- Symbolic model of `PasswordSecurity.hash_password` (bcrypt, cost 12):
an injective tagging of the plaintext, so that verification succeeds
exactly on the hashed plaintext. -/
def hash_password (password : String) : String :=
  "bcrypt$12$" ++ password

/-- Symbolic model of `PasswordSecurity.verify_password`. -/
def verify_password (plain hashed : String) : Bool :=
  hash_password plain == hashed

/-! ## Credential records and the login attempt (app/routes/auth.py) -/

/-- The fields of the `users` row read and written by the login flow
(`app/models/user.py`).  Timestamps are natural-number seconds;
`locked_until` and `last_login` are nullable. -/
structure UserRec where
  email : String
  password_hash : String
  role : String
  is_active : Bool
  is_verified : Bool
  failed_login_attempts : Nat
  locked_until : Option Nat
  last_login : Option Nat
  deriving DecidableEq, Repr

/-- The guard `user.locked_until and user.locked_until > datetime.utcnow()`:
a `datetime` object is always truthy, so the account is locked exactly
when `locked_until` is non-null and strictly in the future. -/
def lockCheck : Option Nat → Nat → Bool
  | some lu, now => decide (now < lu)
  | none, _ => false

/-- The error kinds of the login route, one per raise site
(spec taxonomy names). -/
inductive LoginFailure
  | InvalidCredentials
  | AccountLocked
  | AccountDeactivated
  deriving DecidableEq, Repr

/-- Outcome of a login attempt: success, or a 401 failure carrying the
exact user-facing message string of the corresponding raise site. -/
inductive LoginResult
  | success
  | failure (kind : LoginFailure) (message : String)
  deriving DecidableEq, Repr

/-- The body of the `login` route after the rate-limit gate
(`app/routes/auth.py`, lines 368-451), acting on the result of
`get_user_by_email` and the submitted password.  Returns the HTTP outcome
together with the persisted state of the record (`db.commit()` is the
single commit point; branches that raise before any mutation leave the
record unchanged).  Order of checks in the source: missing user, lock
check, `is_active` check, password verification with
increment-and-maybe-lock, then the success update. -/
def login_attempt (now : Nat) (user : Option UserRec) (password : String) :
    LoginResult × Option UserRec :=
  match user with
  | none =>
      (.failure .InvalidCredentials "Invalid email or password", none)
  | some u =>
      if lockCheck u.locked_until now then
        (.failure .AccountLocked
           "Account temporarily locked due to multiple failed login attempts", some u)
      else if u.is_active = false then
        (.failure .AccountDeactivated "Account has been deactivated", some u)
      else if verify_password password u.password_hash = false then
        let n := u.failed_login_attempts + 1
        if 5 ≤ n then
          (.failure .InvalidCredentials "Invalid email or password",
            some { u with failed_login_attempts := 0, locked_until := some (now + 30 * 60) })
        else
          (.failure .InvalidCredentials "Invalid email or password",
            some { u with failed_login_attempts := n })
      else
        (.success,
          some { u with failed_login_attempts := 0, locked_until := none,
                        last_login := some now })

/-- `create_user` (app/crud/user.py): the new row is created with
`role="user"`, `is_active=True`, `is_verified=False`,
`failed_login_attempts=0`; `locked_until` and `last_login` default to
null. -/
def create_user_record (email password : String) : UserRec :=
  { email := email, password_hash := hash_password password, role := "user",
    is_active := true, is_verified := false, failed_login_attempts := 0,
    locked_until := none, last_login := none }

/-- `update_user_login_info` (app/crud/user.py): sets `last_login = now`,
resets `failed_login_attempts` to 0 and clears `locked_until`, in one
commit. -/
def update_user_login_info (now : Nat) (u : UserRec) : UserRec :=
  { u with last_login := some now, failed_login_attempts := 0, locked_until := none }

/-- Runs a sequence of login attempts (time, password) against one
credential record, threading the persisted state. -/
def run_attempts : List (Nat × String) → Option UserRec → Option UserRec
  | [], st => st
  | a :: rest, st => run_attempts rest (login_attempt a.1 st a.2).2

/-! ## Rate limiter (app/core/rate_limiting.py, `InMemoryRateLimiter`) -/

/-- The eviction loop of `is_allowed`:
`while request_times and request_times[0] <= current_time - window_seconds: popleft()`.
The deque holds the recorded times in append order (ascending), so the
loop is `dropWhile`.  The Python comparison `t <= now - window` is over
reals, so it is rendered as `t + window ≤ now` to avoid truncated
natural subtraction. -/
def evictOld (now window : Nat) (ts : List Nat) : List Nat :=
  ts.dropWhile (fun t => decide (t + window ≤ now))

/-- `InMemoryRateLimiter.is_allowed(key, limit, window_seconds)` for one
key: evict, then deny without recording when the remaining count has
reached the limit, else record `now` and allow.  Returns the decision and
the new recorded-times list. -/
def is_allowed (now lim window : Nat) (ts : List Nat) : Bool × List Nat :=
  let ts1 := evictOld now window ts
  if lim ≤ ts1.length then (false, ts1)
  else (true, ts1 ++ [now])

/-- Modelled from the spec: the algorithm text of the claim reads "evict all
recorded timestamps older than now - window_seconds", i.e. it keeps a
timestamp that is exactly `now - window_seconds` old
(kept iff `¬ (t + window < now)`); then allow-and-record iff the
remaining count is below the limit.  Written for comparison with
`is_allowed`, which evicts with `≤` instead of `<`. -/
def is_allowed_spec_alg (now lim window : Nat) (ts : List Nat) : Bool × List Nat :=
  let ts1 := ts.filter (fun t => !decide (t + window < now))
  if ts1.length < lim then (true, ts1 ++ [now])
  else (false, ts1)

/-- Runs a sequence of requests (at the given times) through the rate
limiter for one key, returning the list of decisions. -/
def run_rate_limiter (lim window : Nat) : List Nat → List Nat → List Bool
  | [], _ => []
  | now :: rest, ts =>
      let r := is_allowed now lim window ts
      r.1 :: run_rate_limiter lim window rest r.2

/-- A concrete credential record that is both deactivated
(`is_active = false`) and currently locked (`locked_until = 1000`), used
to exhibit the order of the lockout and deactivation checks. -/
def lockedInactiveUser : UserRec :=
  { email := "bob@x.com", password_hash := hash_password "pw", role := "user",
    is_active := false, is_verified := false, failed_login_attempts := 0,
    locked_until := some 1000, last_login := none }

/-! ## Helper lemmas about the login attempt -/

/-- Lock guard on a non-null `locked_until`. -/
theorem lockCheck_some (lu now : Nat) : lockCheck (some lu) now = decide (now < lu) := rfl

/-- A currently locked record is rejected with `AccountLocked` and left
unchanged. -/
theorem login_attempt_locked (now : Nat) (u : UserRec) (pw : String)
    (h : lockCheck u.locked_until now = true) :
    login_attempt now (some u) pw =
      (.failure .AccountLocked
        "Account temporarily locked due to multiple failed login attempts", some u) := by
  simp [login_attempt, h]

/-- A wrong password below the threshold increments the counter. -/
theorem login_attempt_wrong_inc (now : Nat) (u : UserRec) (pw : String)
    (hnl : lockCheck u.locked_until now = false)
    (hact : u.is_active = true)
    (hw : verify_password pw u.password_hash = false)
    (hlt : u.failed_login_attempts + 1 < 5) :
    login_attempt now (some u) pw =
      (.failure .InvalidCredentials "Invalid email or password",
        some { u with failed_login_attempts := u.failed_login_attempts + 1 }) := by
  simp [login_attempt, hnl, hact, hw, Nat.not_le.mpr hlt]

/-- A wrong password reaching the threshold locks the account for 30
minutes and resets the counter. -/
theorem login_attempt_wrong_lock (now : Nat) (u : UserRec) (pw : String)
    (hnl : lockCheck u.locked_until now = false)
    (hact : u.is_active = true)
    (hw : verify_password pw u.password_hash = false)
    (hge : 5 ≤ u.failed_login_attempts + 1) :
    login_attempt now (some u) pw =
      (.failure .InvalidCredentials "Invalid email or password",
        some { u with failed_login_attempts := 0, locked_until := some (now + 30 * 60) }) := by
  simp [login_attempt, hnl, hact, hw, hge]

/-! ## Claim theorems -/

/-- C1: the claim says a valid, unexpired, correctly-signed refresh token
presented to `POST /auth/refresh` yields 200 with a new access token.  The
code cannot do this: `JWTManager` defines no `refresh_access_token`
attribute, so the route body always raises `AttributeError`, which its
`except Exception` clause turns into the 401 "Invalid refresh token"
response.  This theorem shows (1) the endpoint returns 401 for every token,
and (2) a concretely issued refresh token does verify as a valid refresh
token, so even it gets 401. -/
theorem refresh_endpoint_always_401 :
    (∀ t : Token, refresh_endpoint t = RefreshResult.invalidRefreshToken401) ∧
    JWTManager.verify_token "server-secret" 0
        (JWTManager.create_refresh_token "server-secret" "alice@x.com" "jti-alice-1" 0 7)
        "refresh" =
      .ok (JWTManager.create_refresh_token "server-secret" "alice@x.com" "jti-alice-1" 0 7).payload := by
  constructor
  · intro t
    rfl
  · rfl

/-- C3: the claim (is_active check precedes the lockout check) is false on
the code: the record `lockedInactiveUser` has `is_active = false` yet its
login attempt at time 0 fails with `AccountLocked`, which is a different
error kind (and message) than `AccountDeactivated`. -/
theorem active_check_order_cex :
    (login_attempt 0 (some lockedInactiveUser) "pw").1 =
      .failure .AccountLocked
        "Account temporarily locked due to multiple failed login attempts" ∧
    LoginFailure.AccountLocked ≠ LoginFailure.AccountDeactivated := by
  exact ⟨rfl, by decide⟩

/-- C3 (amended): the lockout check precedes the `is_active` check: a
currently locked record fails with `AccountLocked` regardless of
`is_active`, and a record with `is_active = false` fails with
`AccountDeactivated` exactly when it is not currently locked. -/
theorem lock_check_precedes_active_check (now : Nat) (u : UserRec) (pw : String)
    (hina : u.is_active = false) :
    (lockCheck u.locked_until now = true →
      (login_attempt now (some u) pw).1 =
        .failure .AccountLocked
          "Account temporarily locked due to multiple failed login attempts") ∧
    (lockCheck u.locked_until now = false →
      (login_attempt now (some u) pw).1 =
        .failure .AccountDeactivated "Account has been deactivated") := by
  constructor <;> intro h <;> simp [login_attempt, h, hina]

/-- Witness for C3 (amended) at the concrete locked inactive record and at
the same record unlocked. -/
theorem lock_check_precedes_active_check_witness :
    lockedInactiveUser.is_active = false ∧
    lockCheck lockedInactiveUser.locked_until 0 = true ∧
    (login_attempt 0 (some lockedInactiveUser) "pw").1 =
      .failure .AccountLocked
        "Account temporarily locked due to multiple failed login attempts" ∧
    lockCheck lockedInactiveUser.locked_until 2000 = false ∧
    (login_attempt 2000 (some lockedInactiveUser) "pw").1 =
      .failure .AccountDeactivated "Account has been deactivated" :=
  ⟨rfl, by decide,
    (lock_check_precedes_active_check 0 lockedInactiveUser "pw" rfl).1 (by decide),
    by decide,
    (lock_check_precedes_active_check 2000 lockedInactiveUser "pw" rfl).2 (by decide)⟩

/-- C7: a login attempt with an email matching no record and a login
attempt against an existing active, unlocked record with a wrong password
fail with the same error kind (`InvalidCredentials`) and the exact same
user-facing message string. -/
theorem no_existence_disclosure (now : Nat) (u : UserRec) (pw1 pw2 : String)
    (hact : u.is_active = true)
    (hnl : lockCheck u.locked_until now = false)
    (hw : verify_password pw2 u.password_hash = false) :
    (login_attempt now none pw1).1 =
      .failure .InvalidCredentials "Invalid email or password" ∧
    (login_attempt now (some u) pw2).1 =
      .failure .InvalidCredentials "Invalid email or password" := by
  refine ⟨rfl, ?_⟩
  by_cases h5 : 5 ≤ u.failed_login_attempts + 1
  · simp [login_attempt_wrong_lock now u pw2 hnl hact hw h5]
  · simp [login_attempt_wrong_inc now u pw2 hnl hact hw (Nat.not_le.mp h5)]

/-- Witness for C7: a fresh record for `carol` with password `Right1`,
probed with the wrong password `Wrong1`. -/
theorem no_existence_disclosure_witness :
    (create_user_record "carol@x.com" "Right1").is_active = true ∧
    lockCheck (create_user_record "carol@x.com" "Right1").locked_until 10 = false ∧
    verify_password "Wrong1" (create_user_record "carol@x.com" "Right1").password_hash = false ∧
    ((login_attempt 10 none "Wrong1").1 =
        .failure .InvalidCredentials "Invalid email or password" ∧
      (login_attempt 10 (some (create_user_record "carol@x.com" "Right1")) "Wrong1").1 =
        .failure .InvalidCredentials "Invalid email or password") :=
  ⟨rfl, rfl, by decide,
    no_existence_disclosure 10 (create_user_record "carol@x.com" "Right1")
      "Wrong1" "Wrong1" rfl rfl (by decide)⟩

/-- C8: token type isolation.  For a validly signed, unexpired token whose
embedded `type` claim differs from the expected type,
`JWTManager.verify_token` fails with the type-mismatch error. -/
theorem token_type_isolation (secret : String) (now : Nat) (t : Token)
    (expected : String)
    (hsig : t.key = secret)
    (hexp : now ≤ t.payload.exp)
    (hty : t.payload.ptype ≠ some expected) :
    JWTManager.verify_token secret now t expected = .error .InvalidTokenType := by
  simp [JWTManager.verify_token, jwtDecode, hsig, Nat.not_lt.mpr hexp, hty]

/-- Witness for C8, both directions: a refresh token presented where an
access token is expected, and an access token presented where a refresh
token is expected. -/
theorem token_type_isolation_witness :
    ((JWTManager.create_refresh_token "k" "a@x.com" "j1" 0 7).key = "k" ∧
      0 ≤ (JWTManager.create_refresh_token "k" "a@x.com" "j1" 0 7).payload.exp ∧
      (JWTManager.create_refresh_token "k" "a@x.com" "j1" 0 7).payload.ptype ≠ some "access" ∧
      JWTManager.verify_token "k" 0 (JWTManager.create_refresh_token "k" "a@x.com" "j1" 0 7)
        "access" = .error .InvalidTokenType) ∧
    ((JWTManager.create_access_token "k" "a@x.com" "j2" 0 30).key = "k" ∧
      0 ≤ (JWTManager.create_access_token "k" "a@x.com" "j2" 0 30).payload.exp ∧
      (JWTManager.create_access_token "k" "a@x.com" "j2" 0 30).payload.ptype ≠ some "refresh" ∧
      JWTManager.verify_token "k" 0 (JWTManager.create_access_token "k" "a@x.com" "j2" 0 30)
        "refresh" = .error .InvalidTokenType) :=
  ⟨⟨rfl, Nat.zero_le _, by decide,
      token_type_isolation "k" 0 (JWTManager.create_refresh_token "k" "a@x.com" "j1" 0 7)
        "access" rfl (Nat.zero_le _) (by decide)⟩,
    ⟨rfl, Nat.zero_le _, by decide,
      token_type_isolation "k" 0 (JWTManager.create_access_token "k" "a@x.com" "j2" 0 30)
        "refresh" rfl (Nat.zero_le _) (by decide)⟩⟩

/-- C4: `revoke_token` on a token that fails verification (invalid
signature, expired, or any other verification failure) is a no-op — it is
a total function, raises nothing, and leaves the blacklist unchanged; and
a jti is inserted only for a token that verifies as an access token, and
then only its own jti. -/
theorem revoke_token_noop_and_only_verified (secret : String) (now : Nat)
    (bl : List String) (t : Token) :
    (∀ e : TokenError, JWTManager.verify_token secret now t "access" = .error e →
      revoke_token secret now bl t = bl) ∧
    (∀ p : Payload, JWTManager.verify_token secret now t "access" = .ok p →
      revoke_token secret now bl t = bl ∨
        ∃ j, p.jti = some j ∧ revoke_token secret now bl t = j :: bl) := by
  constructor
  · intro e he
    simp [revoke_token, he]
  · intro p hp
    cases hj : p.jti with
    | none =>
        left
        simp [revoke_token, hp, hj]
    | some j =>
        by_cases hne : j = ""
        · left
          simp [revoke_token, hp, hj, hne]
        · right
          exact ⟨j, rfl, by simp [revoke_token, hp, hj, hne, TokenBlacklist.add_token]⟩

/-- Witness for C4: a token signed with the wrong key fails verification
and its revocation leaves the blacklist unchanged, and revoking a valid
access token inserts exactly its jti. -/
theorem revoke_token_noop_and_only_verified_witness :
    JWTManager.verify_token "server-secret" 0
        { payload := { sub := "a@x.com", exp := 100, iat := 0,
                       ptype := some "access", jti := some "j9" },
          key := "attacker-key" } "access" = .error .CouldNotValidate ∧
    revoke_token "server-secret" 0 ["j0"]
        { payload := { sub := "a@x.com", exp := 100, iat := 0,
                       ptype := some "access", jti := some "j9" },
          key := "attacker-key" } = ["j0"] ∧
    revoke_token "server-secret" 0 ["j0"]
        (JWTManager.create_access_token "server-secret" "a@x.com" "j7" 0 30) =
      "j7" :: ["j0"] :=
  ⟨by rfl,
    (revoke_token_noop_and_only_verified "server-secret" 0 ["j0"]
        { payload := { sub := "a@x.com", exp := 100, iat := 0,
                       ptype := some "access", jti := some "j9" },
          key := "attacker-key" }).1 .CouldNotValidate (by rfl),
    by rfl⟩

/-- C5: an access token that verifies successfully against the current
blacklist and carries a (nonempty) jti fails verification with the
revoked error immediately after `revoke_token` is called on it, even
though it is not expired. -/
theorem verify_fails_revoked_after_revoke (secret : String) (now : Nat)
    (bl : List String) (t : Token) (p : Payload) (j : String)
    (hv : verify_access_token secret now bl t = .ok p)
    (hj : p.jti = some j) (hne : j ≠ "") :
    verify_access_token secret now (revoke_token secret now bl t) t =
      .error .TokenRevoked := by
  have hvt : JWTManager.verify_token secret now t "access" = .ok p := by
    revert hv
    unfold verify_access_token
    cases h : JWTManager.verify_token secret now t "access" with
    | error e => simp
    | ok q =>
        cases hq : q.jti with
        | none =>
            intro hv
            simp [hq] at hv
            rw [hv]
        | some j2 =>
            intro hv
            simp only [hq] at hv
            by_cases hbl : j2 ≠ "" ∧ TokenBlacklist.is_blacklisted bl j2 = true
            · simp [hbl] at hv
            · simp [hbl] at hv
              rw [hv]
  have hrev : revoke_token secret now bl t = j :: bl := by
    simp [revoke_token, hvt, hj, hne, TokenBlacklist.add_token]
  rw [hrev]
  unfold verify_access_token
  simp [hvt, hj, hne, TokenBlacklist.is_blacklisted, List.contains_cons]

/-- Witness for C5: a freshly issued access token with jti `j7` verifies
against the blacklist `["j0"]`, and after revocation it is rejected as
revoked. -/
theorem verify_fails_revoked_after_revoke_witness :
    verify_access_token "server-secret" 0 ["j0"]
        (JWTManager.create_access_token "server-secret" "a@x.com" "j7" 0 30) =
      .ok (JWTManager.create_access_token "server-secret" "a@x.com" "j7" 0 30).payload ∧
    (JWTManager.create_access_token "server-secret" "a@x.com" "j7" 0 30).payload.jti =
      some "j7" ∧
    verify_access_token "server-secret" 0
        (revoke_token "server-secret" 0 ["j0"]
          (JWTManager.create_access_token "server-secret" "a@x.com" "j7" 0 30))
        (JWTManager.create_access_token "server-secret" "a@x.com" "j7" 0 30) =
      .error .TokenRevoked :=
  ⟨by rfl, rfl,
    verify_fails_revoked_after_revoke "server-secret" 0 ["j0"]
      (JWTManager.create_access_token "server-secret" "a@x.com" "j7" 0 30)
      (JWTManager.create_access_token "server-secret" "a@x.com" "j7" 0 30).payload
      "j7" (by rfl) rfl (by decide)⟩

/-- C2: for an active account that is not locked and whose failed-attempt
counter is anywhere in the Active range (at most 4), five consecutive
wrong-password attempts at time `t` leave the record locked until
`t + 30 * 60` with the counter reset to 0, and every further attempt
before that instant — with any password, including the correct one —
fails with `AccountLocked` and leaves the record unchanged. -/
theorem lockout_threshold (u : UserRec) (t : Nat) (w : String)
    (hact : u.is_active = true)
    (hnl : lockCheck u.locked_until t = false)
    (hcnt : u.failed_login_attempts ≤ 4)
    (hw : verify_password w u.password_hash = false) :
    ∃ u5 : UserRec,
      run_attempts (List.replicate 5 (t, w)) (some u) = some u5 ∧
      u5.locked_until = some (t + 30 * 60) ∧
      u5.failed_login_attempts = 0 ∧
      ∀ (now2 : Nat) (p : String), now2 < t + 30 * 60 →
        login_attempt now2 (some u5) p =
          (.failure .AccountLocked
            "Account temporarily locked due to multiple failed login attempts",
           some u5) := by
  obtain ⟨em, ph, rl, act, ver, f, lu, ll⟩ := u
  replace hcnt : f ≤ 4 := hcnt
  replace hnl : lockCheck lu t = false := hnl
  replace hact : act = true := hact
  replace hw : verify_password w ph = false := hw
  subst hact
  refine ⟨⟨em, ph, rl, true, ver, 0, some (t + 30 * 60), ll⟩, ?_, rfl, rfl, ?_⟩
  · interval_cases f <;>
      simp [run_attempts, List.replicate, login_attempt, hnl, hw, lockCheck_some,
        lt_add_iff_pos_right]
  · intro now2 p h
    simp [login_attempt, lockCheck_some, h]

/-- Witness for C2: user `dave` with password `Right1` (counter at 0, not
locked), five wrong attempts with `Wrong1` at time 100, then the correct
password at time 200 is still rejected with `AccountLocked`. -/
theorem lockout_threshold_witness :
    (create_user_record "dave@x.com" "Right1").is_active = true ∧
    lockCheck (create_user_record "dave@x.com" "Right1").locked_until 100 = false ∧
    (create_user_record "dave@x.com" "Right1").failed_login_attempts ≤ 4 ∧
    verify_password "Wrong1" (create_user_record "dave@x.com" "Right1").password_hash
      = false ∧
    ∃ u5 : UserRec,
      run_attempts (List.replicate 5 (100, "Wrong1"))
          (some (create_user_record "dave@x.com" "Right1")) = some u5 ∧
      u5.locked_until = some (100 + 30 * 60) ∧
      u5.failed_login_attempts = 0 ∧
      ∀ (now2 : Nat) (p : String), now2 < 100 + 30 * 60 →
        login_attempt now2 (some u5) p =
          (.failure .AccountLocked
            "Account temporarily locked due to multiple failed login attempts",
           some u5) :=
  ⟨rfl, rfl, by decide, by decide,
    lockout_threshold (create_user_record "dave@x.com" "Right1") 100 "Wrong1"
      rfl rfl (by decide) (by decide)⟩

/-- C9: in every login-attempt transition that either sets `locked_until`
to a value it did not have before or succeeds, the persisted record has
`failed_login_attempts = 0`; and `update_user_login_info` also writes 0 in
the same update in which it clears the lock. -/
theorem reset_counter_invariant (now : Nat) (u u2 : UserRec) (pw : String)
    (r : LoginResult)
    (h : login_attempt now (some u) pw = (r, some u2)) :
    (r = .success → u2.failed_login_attempts = 0) ∧
    (∀ L : Nat, u2.locked_until = some L → u.locked_until ≠ some L →
      u2.failed_login_attempts = 0) ∧
    (update_user_login_info now u).failed_login_attempts = 0 := by
  refine ⟨?_, ?_, rfl⟩ <;>
    · simp only [login_attempt] at h
      split_ifs at h with h1 h2 h3 h4 <;>
        simp only [Prod.mk.injEq, Option.some.injEq] at h <;>
          obtain ⟨hr, hu⟩ := h <;> subst hu <;> subst hr <;> simp_all

/-- Witness for C9: a successful login on a fresh record resets the
counter to 0. -/
theorem reset_counter_invariant_witness :
    login_attempt 7 (some (create_user_record "erin@x.com" "Pw1"))
        "Pw1" =
      (.success, some { create_user_record "erin@x.com" "Pw1" with
                          failed_login_attempts := 0, locked_until := none,
                          last_login := some 7 }) ∧
    ((LoginResult.success = .success →
      ({ create_user_record "erin@x.com" "Pw1" with
           failed_login_attempts := 0, locked_until := none,
           last_login := some 7 } : UserRec).failed_login_attempts = 0) ∧
     (∀ L : Nat,
        ({ create_user_record "erin@x.com" "Pw1" with
             failed_login_attempts := 0, locked_until := none,
             last_login := some 7 } : UserRec).locked_until = some L →
        (create_user_record "erin@x.com" "Pw1").locked_until ≠ some L →
        ({ create_user_record "erin@x.com" "Pw1" with
             failed_login_attempts := 0, locked_until := none,
             last_login := some 7 } : UserRec).failed_login_attempts = 0) ∧
     (update_user_login_info 7 (create_user_record "erin@x.com" "Pw1")).failed_login_attempts = 0) :=
  ⟨by decide,
    reset_counter_invariant 7 (create_user_record "erin@x.com" "Pw1")
      { create_user_record "erin@x.com" "Pw1" with
          failed_login_attempts := 0, locked_until := none, last_login := some 7 }
      "Pw1" .success (by decide)⟩

/-- One login attempt keeps the persisted counter at most 4: the locked
and deactivated branches leave the record unchanged, the wrong-password
branch increments but resets to 0 at the threshold, and success resets
to 0. -/
theorem login_attempt_preserves_bound (now : Nat) (u : UserRec) (pw : String)
    (h : u.failed_login_attempts ≤ 4) :
    ∀ u2 : UserRec, (login_attempt now (some u) pw).2 = some u2 →
      u2.failed_login_attempts ≤ 4 := by
  intro u2 h2
  simp only [login_attempt] at h2
  split_ifs at h2 with h1 hA hB hC <;>
    (simp only [Option.some.injEq] at h2; subst h2; simp_all; try omega)

/-- `run_attempts` starting from a record with counter at most 4 can only
end in a record with counter at most 4. -/
theorem run_attempts_preserves_bound :
    ∀ (l : List (Nat × String)) (u : UserRec), u.failed_login_attempts ≤ 4 →
      ∀ u2 : UserRec, run_attempts l (some u) = some u2 →
        u2.failed_login_attempts ≤ 4 := by
  intro l
  induction l with
  | nil =>
      intro u hu u2 h
      simp only [run_attempts, Option.some.injEq] at h
      subst h
      exact hu
  | cons a rest ih =>
      intro u hu u2 h
      simp only [run_attempts] at h
      rcases h3 : (login_attempt a.1 (some u) a.2).2 with _ | u3
      · exfalso
        simp only [login_attempt] at h3
        split_ifs at h3
      · rw [h3] at h
        exact ih u3 (login_attempt_preserves_bound a.1 u a.2 hu u3 h3) u2 h

/-- C10: starting from a freshly created credential record
(`failed_login_attempts = 0`), after any sequence of completed login
attempts the persisted counter is between 0 and 4 — it is never persisted
at or above the threshold of 5. -/
theorem failed_attempts_never_reach_threshold (attempts : List (Nat × String))
    (email password : String) (u2 : UserRec)
    (h : run_attempts attempts (some (create_user_record email password)) = some u2) :
    u2.failed_login_attempts ≤ 4 := by
  exact run_attempts_preserves_bound attempts (create_user_record email password)
    (by simp [create_user_record]) u2 h

/-- Witness for C10: four wrong attempts then a fifth that trips the
lockout leave the counter at 0 ≤ 4. -/
theorem failed_attempts_never_reach_threshold_witness :
    run_attempts [(1, "No1"), (2, "No1"), (3, "No1"), (4, "No1"), (5, "No1")]
        (some (create_user_record "fred@x.com" "Yes1")) =
      some { create_user_record "fred@x.com" "Yes1" with
               failed_login_attempts := 0, locked_until := some (5 + 30 * 60) } ∧
    ({ create_user_record "fred@x.com" "Yes1" with
         failed_login_attempts := 0,
         locked_until := some (5 + 30 * 60) } : UserRec).failed_login_attempts ≤ 4 :=
  ⟨by decide,
    failed_attempts_never_reach_threshold
      [(1, "No1"), (2, "No1"), (3, "No1"), (4, "No1"), (5, "No1")]
      "fred@x.com" "Yes1"
      { create_user_record "fred@x.com" "Yes1" with
          failed_login_attempts := 0, locked_until := some (5 + 30 * 60) }
      (by decide)⟩

/-- On a nondecreasing list of recorded times the eviction loop
(a `dropWhile` from the front) removes exactly the timestamps with
`t + window ≤ now`: the eviction predicate is downward closed. -/
theorem evictOld_eq_filter (now window : Nat) :
    ∀ ts : List Nat, ts.Pairwise (· ≤ ·) →
      evictOld now window ts =
        ts.filter (fun t => !decide (t + window ≤ now)) := by
  intro ts h
  induction ts with
  | nil => rfl
  | cons a rest ih =>
      rcases List.pairwise_cons.mp h with ⟨ha, hrest⟩
      by_cases hp : a + window ≤ now
      · have h1 : evictOld now window (a :: rest) = evictOld now window rest := by
          simp [evictOld, List.dropWhile_cons, hp]
        rw [h1, ih hrest, List.filter_cons]
        simp [hp]
      · have hall : ∀ x ∈ rest, (!decide (x + window ≤ now)) = true := by
          intro x hx
          have hax := ha x hx
          have hx2 : ¬ (x + window ≤ now) := by omega
          simp [hx2]
        have h1 : evictOld now window (a :: rest) = a :: rest := by
          simp [evictOld, List.dropWhile_cons, hp]
        rw [h1, List.filter_cons]
        simp [hp, List.filter_eq_self.mpr hall]

/-- C6 counterexample: the algorithm as claimed keeps a timestamp exactly
`window_seconds` old ("older than `now - window_seconds`" is strict), but
the code evicts it (`<=` in the while loop).  With `limit = 1`,
`window = 300`, one recorded request at time 0 and a new request at time
300, the code allows the request while the claimed algorithm denies it. -/
theorem rate_limiter_eviction_boundary_cex :
    (is_allowed 300 1 300 [0]).1 = true ∧
    (is_allowed_spec_alg 300 1 300 [0]).1 = false := by
  constructor <;> rfl

/-- C6 (amended): the rate limiter implements a sliding window whose
eviction boundary is inclusive — on a nondecreasing history it evicts
exactly the timestamps with `t + window ≤ now` (at least `window` old),
then allows and records `now` when the remaining count is below the
limit and otherwise denies while recording nothing; and with
`limit = 5, window = 300`, five requests within one second are all
allowed, a sixth within the same window is denied, and a request after
the window has passed is allowed again. -/
theorem rate_limiter_sliding_window (now lim window : Nat) (ts : List Nat)
    (h : ts.Pairwise (· ≤ ·)) :
    (is_allowed now lim window ts =
      (let kept := ts.filter (fun t => !decide (t + window ≤ now))
       if lim ≤ kept.length then (false, kept) else (true, kept ++ [now]))) ∧
    run_rate_limiter 5 300 [0, 0, 0, 0, 1, 2, 301] [] =
      [true, true, true, true, true, false, true] := by
  constructor
  · simp only [is_allowed, evictOld_eq_filter now window ts h]
  · rfl

/-- Witness for C6 (amended) on the nondecreasing history `[0, 1]` at
time 2. -/
theorem rate_limiter_sliding_window_witness :
    ([0, 1] : List Nat).Pairwise (· ≤ ·) ∧
    ((is_allowed 2 5 300 [0, 1] =
      (let kept := ([0, 1] : List Nat).filter (fun t => !decide (t + 300 ≤ 2))
       if 5 ≤ kept.length then (false, kept) else (true, kept ++ [2]))) ∧
     run_rate_limiter 5 300 [0, 0, 0, 0, 1, 2, 301] [] =
       [true, true, true, true, true, false, true]) :=
  ⟨by decide, rate_limiter_sliding_window 2 5 300 [0, 1] (by decide)⟩
